import Mathlib

/-!
Verification of the two scraping-and-LLM scripts of this repository
(04_summarizer.py and 05_brochure_maker.py) against their specification.

The embedding models:
- Python strings as Lean String (a list of unicode scalar values, matching
  Python's code-point semantics for len, slicing and startswith);
- parsed HTML (the output of BeautifulSoup's html.parser) as a tree of
  element and text nodes;
- the HTTP layer as an oracle mapping a URL to a status code and a parsed
  document;
- the chat-completion service as an oracle mapping (system prompt, user
  prompt, json-mode flag) to a reply string;
- Python's json.loads as an oracle mapping a string to an optional JSON
  value (None modelling a JSONDecodeError);
- raised exceptions as an Except error value; every function additionally
  returns the ordered trace of network events (HTTP GETs and chat calls)
  it performed before returning or raising.
-/

/-- Characters stripped by Python's str.strip with no argument
(ASCII whitespace; the model ignores the exotic unicode space classes). -/
def isPySpace (c : Char) : Bool :=
  c = ' ' || c = '\t' || c = '\n' || c = '\r' || c = '\x0b' || c = '\x0c'

/-- Python str.strip on the underlying character list: drop leading and
trailing whitespace characters. -/
def stripChars (l : List Char) : List Char :=
  ((l.dropWhile isPySpace).reverse.dropWhile isPySpace).reverse

/-- Python str.strip with no argument. -/
def pyStrip (s : String) : String :=
  String.mk (stripChars s.data)

/-- Python slicing s[:n] : the first n characters (code points). -/
def pySlice (n : Nat) (s : String) : String :=
  String.mk (s.data.take n)

/-- Python str.startswith on character lists. -/
def charsStartWith : List Char → List Char → Bool
  | _, [] => true
  | [], _ :: _ => false
  | a :: as, b :: bs => a = b && charsStartWith as bs

/-- Python str.startswith. -/
def pyStartsWith (s pat : String) : Bool :=
  charsStartWith s.data pat.data

/-- Python sep.join(parts). -/
def joinSep (sep : String) : List String → String
  | [] => ""
  | [s] => s
  | s :: rest => s ++ sep ++ joinSep sep rest

/-- Python string interpolation of an optional string: None prints as
the four characters None. -/
def optStr : Option String → String
  | none => "None"
  | some s => s

mutual
/-- A node of a parsed HTML document: a text node, or an element with a
tag name, an attribute list and children. -/
inductive Node where
  | text (s : String) : Node
  | elem (tag : String) (attrs : List (String × String)) (children : NodeList) : Node
deriving DecidableEq
/-- A sequence of sibling HTML nodes. -/
inductive NodeList where
  | nil : NodeList
  | cons (hd : Node) (tl : NodeList) : NodeList
deriving DecidableEq
end

/-- First value of an attribute in an attribute list (html.parser keeps
the first occurrence of a duplicated attribute). -/
def attrLookup : List (String × String) → String → Option String
  | [], _ => none
  | (k, v) :: rest, key => if k = key then some v else attrLookup rest key

/-- The four tag names decomposed by both scripts before text extraction. -/
def isIrrelevant (t : String) : Bool :=
  t = "script" || t = "style" || t = "img" || t = "input"

mutual
/-- BeautifulSoup soup.find(tag) on a single node: the node itself if its
tag matches, else the first match among its descendants in document order. -/
def findTagN (t : String) : Node → Option Node
  | .text _ => none
  | .elem tg a cs => if tg = t then some (.elem tg a cs) else findTagL t cs
/-- BeautifulSoup soup.find(tag) over a sibling sequence, document order. -/
def findTagL (t : String) : NodeList → Option Node
  | .nil => none
  | .cons n ns =>
    match findTagN t n with
    | some r => some r
    | none => findTagL t ns
end

/-- BeautifulSoup Tag.string: the single text child, the string of a
single element child, and otherwise (zero or several children) None. -/
def tagString : Node → Option String
  | .text s => some s
  | .elem _ _ (.cons c .nil) => tagString c
  | .elem _ _ _ => none

/-- Effect of the decompose loop run by both scripts over a body's
children: every descendant element whose tag is script, style, img or
input is removed together with its whole subtree. -/
def removeIrr : NodeList → NodeList
  | .nil => .nil
  | .cons (.text s) ns => .cons (.text s) (removeIrr ns)
  | .cons (.elem t a cs) ns =>
    if isIrrelevant t then removeIrr ns
    else .cons (.elem t a (removeIrr cs)) (removeIrr ns)

mutual
/-- All descendant text-node strings of a node, in document order
(BeautifulSoup's Tag.strings). -/
def textsN : Node → List String
  | .text s => [s]
  | .elem _ _ cs => textsL cs
/-- All descendant text-node strings of a sibling sequence. -/
def textsL : NodeList → List String
  | .nil => []
  | .cons n ns => textsN n ++ textsL ns
end

/-- The text pieces kept by get_text(separator, strip=True): each
descendant string stripped, empty results dropped. -/
def strippedPieces (cs : NodeList) : List String :=
  ((textsL cs).map pyStrip).filter (fun s => s ≠ "")

/-- BeautifulSoup Tag.get_text(separator newline, strip=True) over a
sibling sequence. -/
def getTextStrip (cs : NodeList) : String :=
  joinSep "\n" (strippedPieces cs)

mutual
/-- Erase the contents of every script, style, img and input element,
keeping everything else: two documents with the same scrub agree
everywhere except inside those elements. -/
def scrubN : Node → Node
  | .text s => .text s
  | .elem t a cs => if isIrrelevant t then .elem t a .nil else .elem t a (scrubL cs)
/-- Scrub over a sibling sequence. -/
def scrubL : NodeList → NodeList
  | .nil => .nil
  | .cons n ns => .cons (scrubN n) (scrubL ns)
end

mutual
/-- In-place decompose as seen from the whole document: replace the
children of the first body element in document order by their cleaned
version, reporting whether a body was found. -/
def replBodyN : Node → Node × Bool
  | .text s => (.text s, false)
  | .elem t a cs =>
    if t = "body" then (.elem t a (removeIrr cs), true)
    else
      match replBodyL cs with
      | (cs', true) => (.elem t a cs', true)
      | (_, false) => (.elem t a cs, false)
/-- Decompose inside the first body element of a sibling sequence. -/
def replBodyL : NodeList → NodeList × Bool
  | .nil => (.nil, false)
  | .cons n ns =>
    match replBodyN n with
    | (n', true) => (.cons n' ns, true)
    | (_, false) =>
      match replBodyL ns with
      | (ns', f) => (.cons n ns', f)
end

mutual
/-- link.get(href) for every anchor element of a node in document order
(soup.find_all of the anchor tag, including anchors nested in anchors):
None for an anchor with no target attribute. -/
def hrefOptsN : Node → List (Option String)
  | .text _ => []
  | .elem t a cs => (if t = "a" then [attrLookup a "href"] else []) ++ hrefOptsL cs
/-- Anchor targets of a sibling sequence in document order. -/
def hrefOptsL : NodeList → List (Option String)
  | .nil => []
  | .cons n ns => hrefOptsN n ++ hrefOptsL ns
end

/-- The Python truthiness filter of the link comprehension: None and the
empty string are dropped, every other value kept in order. -/
def pyTruthyStrs : List (Option String) → List String
  | [] => []
  | none :: rest => pyTruthyStrs rest
  | some s :: rest => if s = "" then pyTruthyStrs rest else s :: pyTruthyStrs rest

mutual
/-- No anchor element anywhere in this node. -/
def anchorFreeN : Node → Bool
  | .text _ => true
  | .elem t _ cs => !(t == "a") && anchorFreeL cs
/-- No anchor element anywhere in this sibling sequence. -/
def anchorFreeL : NodeList → Bool
  | .nil => true
  | .cons n ns => anchorFreeN n && anchorFreeL ns
end

mutual
/-- No anchor element hides inside a script, style, img or input element
of this node: true of every document produced by html.parser, whose
script and style contents are raw text and whose img and input elements
are void. -/
def noAnchorInIrrN : Node → Bool
  | .text _ => true
  | .elem t _ cs => if isIrrelevant t then anchorFreeL cs else noAnchorInIrrL cs
/-- No anchor inside an irrelevant element of this sibling sequence. -/
def noAnchorInIrrL : NodeList → Bool
  | .nil => true
  | .cons n ns => noAnchorInIrrN n && noAnchorInIrrL ns
end

/-- Does this attribute list carry a non-empty target attribute? -/
def hasNonemptyHref (a : List (String × String)) : Bool :=
  match attrLookup a "href" with
  | some s => s ≠ ""
  | none => false

mutual
/-- Number of anchor elements of a node whose target attribute is
non-empty (the counting notion used by the specification). -/
def countAnchorsN : Node → Nat
  | .text _ => 0
  | .elem t a cs => (if t = "a" && hasNonemptyHref a then 1 else 0) + countAnchorsL cs
/-- Number of anchors with a non-empty target in a sibling sequence. -/
def countAnchorsL : NodeList → Nat
  | .nil => 0
  | .cons n ns => countAnchorsN n + countAnchorsL ns
end

/-- A JSON value as produced by json.loads. -/
inductive Json where
  | null : Json
  | bool (b : Bool) : Json
  | num (n : Int) : Json
  | str (s : String) : Json
  | arr (elems : List Json) : Json
  | obj (fields : List (String × Json)) : Json

/-- Dictionary lookup on the fields of a JSON object. -/
def lookupField : List (String × Json) → String → Option Json
  | [], _ => none
  | (k, v) :: rest, key => if k = key then some v else lookupField rest key

/-- Errors raised by the scripts: a failed fetch, the fatal credential
check, a JSONDecodeError from json.loads, the AttributeError of calling
strip on None, and TypeError or KeyError from using a JSON value of the
wrong shape. -/
inductive Err where
  | fetchFailure (url : String) (status : Nat) : Err
  | missingCredential : Err
  | classificationParseError : Err
  | attributeError : Err
  | typeError : Err
  | keyError (k : String) : Err
deriving DecidableEq

/-- Python subscription link[key] on a JSON value: a KeyError on an
object missing the key, a TypeError on any non-object (list and string
subscription with a string key is also a TypeError). -/
def jsonIndex : Json → String → Except Err Json
  | .obj fs, k =>
    match lookupField fs k with
    | some v => .ok v
    | none => .error (.keyError k)
  | _, _ => .error .typeError

/-- Python iteration over a JSON value: a list yields its elements, a
dict yields its keys, a string yields its one-character substrings, and
None, booleans and numbers raise a TypeError. -/
def iterElems : Json → Except Err (List Json)
  | .arr xs => .ok xs
  | .obj fs => .ok (fs.map (fun kv => Json.str kv.1))
  | .str s => .ok (s.data.map (fun c => Json.str (String.mk [c])))
  | _ => .error .typeError

/-- Python str() of a decoded JSON value, as interpolated into the
aggregation f-string; the container cases abbreviate Python's repr,
whose exact spelling no claim depends on. -/
def pyStrJson : Json → String
  | .str s => s
  | .num n => toString n
  | .bool true => "True"
  | .bool false => "False"
  | .null => "None"
  | .arr _ => "[...]"
  | .obj _ => "\x7b...\x7d"

/-- An HTTP response: the status code and the parsed document body. -/
structure HttpResponse where
  status : Nat
  content : NodeList

/-- The network as a deterministic oracle from URL to response. -/
abbrev HttpEnv := String → HttpResponse

/-- The chat-completion service as an oracle from (system prompt, user
prompt, json-mode flag) to the reply text. -/
abbrev LLMEnv := String → String → Bool → String

/-- Python json.loads as an oracle; none models a JSONDecodeError. -/
abbrev JsonLoads := String → Option Json

/-- A network event: an HTTP GET to a URL, or a chat-completion request
with its system prompt, user prompt and json-mode flag. -/
inductive Event where
  | get (url : String) : Event
  | chat (system user : String) (jsonMode : Bool) : Event
deriving DecidableEq

/-- Is this event an HTTP GET? -/
def isGet : Event → Bool
  | .get _ => true
  | .chat _ _ _ => false

/-- Number of HTTP GET requests in a trace. -/
def countGets (t : List Event) : Nat :=
  (t.filter isGet).length

namespace Summarizer

/-- Outcome of the module-level api_key check of 04_summarizer.py: a
missing or empty key raises ValueError, a key without the sk-proj-
prefix prints a warning, a key with surrounding whitespace prints a
warning, and otherwise a success message is printed; only fatal stops
the script. -/
inductive KeyOutcome where
  | fatal : KeyOutcome
  | warnKey : KeyOutcome
  | warnSpaces : KeyOutcome
  | valid : KeyOutcome
deriving DecidableEq

/-- The api_key check of 04_summarizer.py (lines 35-46). -/
def keyCheck : Option String → KeyOutcome
  | none => .fatal
  | some s =>
    if s = "" then .fatal
    else if !(pyStartsWith s "sk-proj-") then .warnKey
    else if pyStrip s ≠ s then .warnSpaces
    else .valid

/-- The summarizer's Website object: url, title and cleaned body text. -/
structure Website where
  url : String
  title : String
  text : String
deriving DecidableEq

/-- Title extraction of 04_summarizer.py line 83: the stripped string of
the first title element, the marker when no title element exists, and an
AttributeError when the title element has no single string (strip called
on None). -/
def titleOf (doc : NodeList) : Except Err String :=
  match findTagL "title" doc with
  | none => .ok "No title found"
  | some tn =>
    match tagString tn with
    | none => .error .attributeError
    | some s => .ok (pyStrip s)

/-- Body text extraction shared by both scripts: decompose the
irrelevant elements inside the first body element, then get_text with a
newline separator and strip; the empty string when no body exists. -/
def bodyTextOf (doc : NodeList) : String :=
  match findTagL "body" doc with
  | some (.elem _ _ cs) => getTextStrip (removeIrr cs)
  | _ => ""

/-- Website.__init__ of 04_summarizer.py: GET the url, raise on a
non-200 status, then extract title and cleaned body text. -/
def Website.fetch (env : HttpEnv) (url : String) : Except Err Website × List Event :=
  let r := env url
  if r.status ≠ 200 then (.error (.fetchFailure url r.status), [.get url])
  else
    match titleOf r.content with
    | .error e => (.error e, [.get url])
    | .ok t => (.ok ⟨url, t, bodyTextOf r.content⟩, [.get url])

/-- SYSTEM_PROMPT of 04_summarizer.py. -/
def SYSTEM_PROMPT : String :=
  "You are an assistant that analyzes the contents of a website and provides a short summary, ignoring text that might be navigation related. Respond in markdown."

/-- user_prompt_for of 04_summarizer.py. -/
def user_prompt_for (w : Website) : String :=
  "You are looking at a website titled " ++ w.title ++ "\n\n" ++
  "The contents of this website are as follows; please provide a short summary of this website in markdown. If it includes news or announcements, then summarize these too.\n\n" ++
  w.text

/-- summarize of 04_summarizer.py: fetch the website, send one chat
completion built by messages_for, return the reply verbatim. -/
def summarize (env : HttpEnv) (llm : LLMEnv) (url : String) :
    Except Err String × List Event :=
  match Website.fetch env url with
  | (.error e, tr) => (.error e, tr)
  | (.ok w, tr) =>
    let up := user_prompt_for w
    (.ok (llm SYSTEM_PROMPT up false), tr ++ [.chat SYSTEM_PROMPT up false])

/-- The whole script run: the module-level key check, then summarize;
a fatal key check raises before any network traffic. -/
def runScript (env : HttpEnv) (llm : LLMEnv) (key : Option String) (url : String) :
    Except Err String × List Event :=
  match keyCheck key with
  | .fatal => (.error .missingCredential, [])
  | _ => summarize env llm url

end Summarizer

namespace Brochure

/-- The api_key check of 05_brochure_maker.py (lines 35-41): the key is
accepted exactly when it is present, starts with sk-proj- and is longer
than 10 characters; every other case raises ValueError. There is no
warning path and no whitespace check. -/
def keyOk : Option String → Bool
  | none => false
  | some s => !(s == "") && pyStartsWith s "sk-proj-" && decide (s.length > 10)

/-- The brochure maker's Website object: url, title (Python None when
the title element has no single string), cleaned body text, and the
truthy href values of every anchor of the (decomposed) document. -/
structure Website where
  url : String
  title : Option String
  text : String
  links : List String
deriving DecidableEq

/-- Title extraction of 05_brochure_maker.py line 77: the raw string of
the first title element (Python None, not a raise, when the element has
no single string), or the marker when no title element exists. -/
def titleOf (doc : NodeList) : Option String :=
  match findTagL "title" doc with
  | none => some "No title found"
  | some tn => tagString tn

/-- Website.__init__ of 05_brochure_maker.py after a successful GET:
title from the first title element (line 77), body text after
decomposing irrelevant elements inside the first body (lines 80-85),
then every anchor's href collected over the mutated document with
falsy values dropped (lines 88-90). -/
def mkWebsite (url : String) (doc : NodeList) : Website :=
  let title := titleOf doc
  let text := Summarizer.bodyTextOf doc
  let mutated := (replBodyL doc).1
  let links := pyTruthyStrs (hrefOptsL mutated)
  ⟨url, title, text, links⟩

/-- Website.__init__ of 05_brochure_maker.py: GET the url, raise on a
non-200 status, else build the Website; construction after a successful
fetch never raises. -/
def Website.fetch (env : HttpEnv) (url : String) : Except Err Website × List Event :=
  let r := env url
  if r.status ≠ 200 then (.error (.fetchFailure url r.status), [.get url])
  else (.ok (mkWebsite url r.content), [.get url])

/-- get_contents of 05_brochure_maker.py. -/
def get_contents (w : Website) : String :=
  "Webpage Title:\n" ++ optStr w.title ++ "\nWebpage Contents:\n" ++ w.text ++ "\n\n"

/-- link_system_prompt of 05_brochure_maker.py. -/
def link_system_prompt : String :=
  "You are provided with a list of links found on a webpage. You are able to decide which of the links would be most relevant to include in a brochure about the company, such as links to an About page, Company page, or Careers/Jobs pages.\nYou should respond in JSON as in this example:\n\x7b\n    \"links\": [\n        \x7b\"type\": \"about page\", \"url\": \"https://full.url/goes/here/about\"\x7d,\n        \x7b\"type\": \"careers page\", \"url\": \"https://another.full.url/careers\"\x7d\n    ]\n\x7d\n"

/-- get_links_user_prompt of 05_brochure_maker.py. -/
def get_links_user_prompt (w : Website) : String :=
  "Here is the list of links on the website of " ++ w.url ++ ". Please decide which of these are relevant web links for a brochure about the company. Respond with the full https URL in JSON format. Do not include Terms of Service, Privacy, or email links.\n\nLinks (some might be relative links):\n" ++
  joinSep "\n" w.links

/-- get_links of 05_brochure_maker.py: fetch the website, send the link
classification chat in json mode, and json.loads the reply; a reply that
is not valid JSON raises, and any decoded value is returned unchecked. -/
def get_links (env : HttpEnv) (llm : LLMEnv) (jl : JsonLoads) (url : String) :
    Except Err Json × List Event :=
  match Website.fetch env url with
  | (.error e, tr) => (.error e, tr)
  | (.ok w, tr) =>
    let up := get_links_user_prompt w
    let reply := llm link_system_prompt up true
    let evs := tr ++ [.chat link_system_prompt up true]
    match jl reply with
    | none => (.error .classificationParseError, evs)
    | some j => (.ok j, evs)

/-- The loop of get_all_details (lines 160-163): for each selected link,
append the type label, fetch the link's url and append its contents;
link subscription errors and failed fetches propagate (requests.get on a
non-string url also raises, modelled as a TypeError). -/
def fetchLoop (env : HttpEnv) : List Json → String → Except Err String × List Event
  | [], acc => (.ok acc, [])
  | link :: rest, acc =>
    match jsonIndex link "type" with
    | .error e => (.error e, [])
    | .ok ty =>
      match jsonIndex link "url" with
      | .error e => (.error e, [])
      | .ok u =>
        match u with
        | .str us =>
          (match Website.fetch env us with
          | (.error e, tr) => (.error e, tr)
          | (.ok w, tr) =>
            let acc' := acc ++ "\n\n" ++ pyStrJson ty ++ "\n" ++ get_contents w
            match fetchLoop env rest acc' with
            | (res, tr2) => (res, tr ++ tr2))
        | _ => (.error .typeError, [])

/-- get_all_details of 05_brochure_maker.py: fetch the landing page,
ask get_links for the selection (which fetches the landing page again),
then fetch every selected link and concatenate all contents. -/
def get_all_details (env : HttpEnv) (llm : LLMEnv) (jl : JsonLoads) (url : String) :
    Except Err String × List Event :=
  match Website.fetch env url with
  | (.error e, tr) => (.error e, tr)
  | (.ok w, tr1) =>
    let acc := "Landing page:\n" ++ get_contents w
    match get_links env llm jl url with
    | (.error e, tr2) => (.error e, tr1 ++ tr2)
    | (.ok j, tr2) =>
      match jsonIndex j "links" with
      | .error e => (.error e, tr1 ++ tr2)
      | .ok lv =>
        match iterElems lv with
        | .error e => (.error e, tr1 ++ tr2)
        | .ok entries =>
          match fetchLoop env entries acc with
          | (res, tr3) => (res, tr1 ++ tr2 ++ tr3)

/-- system_prompt of 05_brochure_maker.py. -/
def system_prompt : String :=
  "You are an assistant that analyzes the contents of several relevant pages from a company website and creates a short brochure about the company for prospective customers, investors, and recruits. Respond in markdown. Include details of company culture, customers, and careers/jobs if available."

/-- The two opening lines of get_brochure_user_prompt. -/
def brochureOpening (company : String) : String :=
  "You are looking at a company called: " ++ company ++ "\n" ++
  "Here are the contents of its landing page and other relevant pages; use this information to build a short brochure of the company in markdown.\n"

/-- get_brochure_user_prompt of 05_brochure_maker.py: the opening lines
plus get_all_details, truncated to the first 5000 characters. -/
def get_brochure_user_prompt (env : HttpEnv) (llm : LLMEnv) (jl : JsonLoads)
    (company url : String) : Except Err String × List Event :=
  match get_all_details env llm jl url with
  | (.error e, tr) => (.error e, tr)
  | (.ok d, tr) => (.ok (pySlice 5000 (brochureOpening company ++ d)), tr)

/-- create_brochure of 05_brochure_maker.py: build the user prompt and
send one chat completion, returning the reply verbatim. -/
def create_brochure (env : HttpEnv) (llm : LLMEnv) (jl : JsonLoads)
    (company url : String) : Except Err String × List Event :=
  match get_brochure_user_prompt env llm jl company url with
  | (.error e, tr) => (.error e, tr)
  | (.ok up, tr) => (.ok (llm system_prompt up false), tr ++ [.chat system_prompt up false])

/-- The whole script run: the module-level key check, then
create_brochure; a rejected key raises before any network traffic. -/
def runScript (env : HttpEnv) (llm : LLMEnv) (jl : JsonLoads) (key : Option String)
    (company url : String) : Except Err String × List Event :=
  if keyOk key then create_brochure env llm jl company url
  else (.error .missingCredential, [])

/-- The reply the classification service gives in get_links url, before
parsing (the landing page assumed fetchable). -/
def linkReply (env : HttpEnv) (llm : LLMEnv) (url : String) : String :=
  llm link_system_prompt (get_links_user_prompt (mkWebsite url (env url).content)) true

/-- The list of entries the classifier selected, as iterated by
get_all_details: the value of the links key of the decoded reply, when
everything up to there succeeds. -/
def selectedEntries (env : HttpEnv) (llm : LLMEnv) (jl : JsonLoads) (url : String) :
    Option (List Json) :=
  match (get_links env llm jl url).1 with
  | .error _ => none
  | .ok j =>
    match jsonIndex j "links" with
    | .error _ => none
    | .ok lv =>
      match iterElems lv with
      | .error _ => none
      | .ok entries => some entries

end Brochure

/-! ## Generic lemmas about the Python string model -/

theorem dropWhile_dw {α : Type} (p : α → Bool) (l : List α) :
    (l.dropWhile p).dropWhile p = l.dropWhile p := by
  induction l with
  | nil => rfl
  | cons a l ih =>
    by_cases h : p a
    · simp [List.dropWhile_cons, h, ih]
    · simp [List.dropWhile_cons, h]

theorem dropWhile_head_not {α : Type} (p : α → Bool) (l : List α)
    (h : l.dropWhile p = l) : ∀ c t, l = c :: t → p c = false := by
  intro c t hl
  have h0 := List.head?_dropWhile_not p l
  rw [h, hl] at h0
  simpa using h0

theorem stripChars_fixes_dropped (l : List Char)
    (h : l.dropWhile isPySpace = l) :
    ((l.reverse.dropWhile isPySpace).reverse).dropWhile isPySpace =
      (l.reverse.dropWhile isPySpace).reverse := by
  cases l with
  | nil => rfl
  | cons c t =>
    have hc : isPySpace c = false := dropWhile_head_not isPySpace _ h c t rfl
    have hrev : (c :: t).reverse = t.reverse ++ [c] := by simp
    rw [hrev, List.dropWhile_append]
    by_cases he : (t.reverse.dropWhile isPySpace).isEmpty
    · simp only [he, if_pos]
      simp [List.dropWhile_cons, hc]
    · simp only [he, if_neg, Bool.false_eq_true, not_false_iff]
      rw [List.reverse_append]
      simp [List.dropWhile_cons, hc]

theorem stripChars_idem (l : List Char) : stripChars (stripChars l) = stripChars l := by
  unfold stripChars
  have h1 : ((l.dropWhile isPySpace).reverse.dropWhile isPySpace).reverse.dropWhile isPySpace =
      ((l.dropWhile isPySpace).reverse.dropWhile isPySpace).reverse :=
    stripChars_fixes_dropped (l.dropWhile isPySpace) (dropWhile_dw isPySpace l)
  rw [h1, List.reverse_reverse, dropWhile_dw]

theorem pyStrip_idem (s : String) : pyStrip (pyStrip s) = pyStrip s := by
  unfold pyStrip
  rw [show (String.mk (stripChars s.data)).data = stripChars s.data from rfl, stripChars_idem]

theorem mem_strippedPieces {p : String} {cs : NodeList}
    (h : p ∈ strippedPieces cs) : pyStrip p = p ∧ p ≠ "" := by
  unfold strippedPieces at h
  obtain ⟨hmem, hne⟩ := List.mem_filter.mp h
  refine ⟨?_, by simpa using hne⟩
  obtain ⟨q, _, hq⟩ := List.mem_map.mp hmem
  rw [← hq, pyStrip_idem]

/-! ## Network fixtures used by the concrete witnesses -/

/-- An environment in which every URL answers 404. -/
def envNotFound : HttpEnv := fun _ => ⟨404, .nil⟩

/-- A chat service answering the fixed text R to every request. -/
def llmConst : LLMEnv := fun _ _ _ => "R"

/-- A json.loads oracle that always fails to decode. -/
def jlNone : JsonLoads := fun _ => none

/-- A json.loads oracle that decodes everything to JSON null. -/
def jlNull : JsonLoads := fun _ => some .null

/-- A tiny page: a title T and a body containing the text Hi. -/
def docTiny : NodeList :=
  .cons (.elem "html" []
    (.cons (.elem "head" [] (.cons (.elem "title" [] (.cons (.text "T") .nil)) .nil))
      (.cons (.elem "body" [] (.cons (.text "Hi") .nil)) .nil))) .nil

/-- An environment answering every URL with the tiny page. -/
def envTiny : HttpEnv := fun _ => ⟨200, docTiny⟩

/-! ## C1 -/

/-- C1: in both scripts, a Website construction for a URL whose response
status is not 200 raises the fetch failure after the single GET, and no
page object (hence no title, text or link field) is produced. -/
theorem c1_nonsuccess_fetch_fails (env : HttpEnv) (url : String)
    (h : (env url).status ≠ 200) :
    Summarizer.Website.fetch env url =
      (.error (.fetchFailure url (env url).status), [.get url]) ∧
    Brochure.Website.fetch env url =
      (.error (.fetchFailure url (env url).status), [.get url]) := by
  constructor
  · unfold Summarizer.Website.fetch
    simp [h]
  · unfold Brochure.Website.fetch
    simp [h]

/-- C1 witness: a concrete 404 environment. -/
theorem c1_witness :
    Summarizer.Website.fetch envNotFound "https://example.com" =
      (.error (.fetchFailure "https://example.com" 404), [.get "https://example.com"]) ∧
    Brochure.Website.fetch envNotFound "https://example.com" =
      (.error (.fetchFailure "https://example.com" 404), [.get "https://example.com"]) :=
  c1_nonsuccess_fetch_fails envNotFound "https://example.com" (by decide)

/-! ## C2 -/

/-- C2: whenever the aggregation succeeds, get_brochure_user_prompt
returns the opening lines plus the aggregated document cut to its first
5000 characters: the result never exceeds 5000 characters, and it is
exactly the character-boundary cutoff of the un-truncated concatenation,
whatever its size. -/
theorem c2_truncation_cap (env : HttpEnv) (llm : LLMEnv) (jl : JsonLoads)
    (company url d : String)
    (h : (Brochure.get_all_details env llm jl url).1 = .ok d) :
    (Brochure.get_brochure_user_prompt env llm jl company url).1 =
      .ok (pySlice 5000 (Brochure.brochureOpening company ++ d)) ∧
    (pySlice 5000 (Brochure.brochureOpening company ++ d)).length ≤ 5000 ∧
    (pySlice 5000 (Brochure.brochureOpening company ++ d)).data =
      (Brochure.brochureOpening company ++ d).data.take 5000 := by
  refine ⟨?_, ?_, rfl⟩
  · rcases hga : Brochure.get_all_details env llm jl url with ⟨res, tr⟩
    rw [hga] at h
    simp only at h
    unfold Brochure.get_brochure_user_prompt
    rw [hga, h]
  · show (((Brochure.brochureOpening company ++ d)).data.take 5000).length ≤ 5000
    rw [List.length_take]
    exact Nat.min_le_left _ _

/-! ## C5 (corrected) -/

/-- C5 counterexample: in 05_brochure_maker.py a credential that is
present but has the wrong prefix is fatal: the script raises before any
network call instead of emitting a warning and continuing. -/
theorem c5_counterexample :
    "sk-test-12345" ≠ "" ∧
    pyStartsWith "sk-test-12345" "sk-proj-" = false ∧
    Brochure.runScript envNotFound llmConst jlNone (some "sk-test-12345")
      "HuggingFace" "https://huggingface.co" = (.error .missingCredential, []) :=
  ⟨by decide, by decide, rfl⟩

/-- C5 as amended: an empty or absent credential is fatal in both
scripts before any network call. In the summarizer a present non-empty
key with a wrong prefix, or with surrounding whitespace, only warns and
the run continues. In the brochure maker any key that does not start
with sk-proj- or is at most 10 characters long is fatal before any
network call, while a key passing that test continues with no
whitespace check at all. -/
theorem c5_amended_credential_handling :
    (∀ env llm url,
      Summarizer.runScript env llm none url = (.error .missingCredential, []) ∧
      Summarizer.runScript env llm (some "") url = (.error .missingCredential, [])) ∧
    (∀ env llm jl company url,
      Brochure.runScript env llm jl none company url = (.error .missingCredential, []) ∧
      Brochure.runScript env llm jl (some "") company url =
        (.error .missingCredential, [])) ∧
    (∀ env llm url s, s ≠ "" → pyStartsWith s "sk-proj-" = false →
      Summarizer.keyCheck (some s) = .warnKey ∧
      Summarizer.runScript env llm (some s) url = Summarizer.summarize env llm url) ∧
    (∀ env llm url s, s ≠ "" → pyStartsWith s "sk-proj-" = true → pyStrip s ≠ s →
      Summarizer.keyCheck (some s) = .warnSpaces ∧
      Summarizer.runScript env llm (some s) url = Summarizer.summarize env llm url) ∧
    (∀ env llm jl company url s, Brochure.keyOk (some s) = false →
      Brochure.runScript env llm jl (some s) company url =
        (.error .missingCredential, [])) ∧
    (∀ env llm jl company url s, pyStartsWith s "sk-proj-" = true → s.length > 10 →
      Brochure.runScript env llm jl (some s) company url =
        Brochure.create_brochure env llm jl company url) := by
  refine ⟨?_, ?_, ?_, ?_, ?_, ?_⟩
  · intro env llm url
    constructor <;> rfl
  · intro env llm jl company url
    constructor <;> rfl
  · intro env llm url s hne hpre
    have hk : Summarizer.keyCheck (some s) = .warnKey := by
      unfold Summarizer.keyCheck
      simp [hne, hpre]
    refine ⟨hk, ?_⟩
    unfold Summarizer.runScript
    rw [hk]
  · intro env llm url s hne hpre hsp
    have hk : Summarizer.keyCheck (some s) = .warnSpaces := by
      unfold Summarizer.keyCheck
      simp [hne, hpre, hsp]
    refine ⟨hk, ?_⟩
    unfold Summarizer.runScript
    rw [hk]
  · intro env llm jl company url s hk
    unfold Brochure.runScript
    rw [hk]
    simp
  · intro env llm jl company url s hpre hlen
    have hne : ¬ s = "" := by
      intro h
      rw [h] at hlen
      simp [String.length] at hlen
    have hk : Brochure.keyOk (some s) = true := by
      unfold Brochure.keyOk
      simp [hne, hpre, hlen]
    unfold Brochure.runScript
    rw [hk]
    simp

/-- C5 witness: concrete keys exercising every branch of the amended
statement. -/
theorem c5_witness :
    Summarizer.runScript envNotFound llmConst none "https://x" =
      (.error .missingCredential, []) ∧
    (Summarizer.keyCheck (some "sk-test-12345") = .warnKey ∧
      Summarizer.runScript envNotFound llmConst (some "sk-test-12345") "https://x" =
        Summarizer.summarize envNotFound llmConst "https://x") ∧
    (Summarizer.keyCheck (some "sk-proj-12345 ") = .warnSpaces ∧
      Summarizer.runScript envNotFound llmConst (some "sk-proj-12345 ") "https://x" =
        Summarizer.summarize envNotFound llmConst "https://x") ∧
    Brochure.runScript envNotFound llmConst jlNone (some "short") "C" "https://x" =
      (.error .missingCredential, []) ∧
    Brochure.runScript envNotFound llmConst jlNone (some "sk-proj-1234567890") "C" "https://x" =
      Brochure.create_brochure envNotFound llmConst jlNone "C" "https://x" :=
  ⟨(c5_amended_credential_handling.1 envNotFound llmConst "https://x").1,
   c5_amended_credential_handling.2.2.1 envNotFound llmConst "https://x" "sk-test-12345"
     (by decide) (by decide),
   c5_amended_credential_handling.2.2.2.1 envNotFound llmConst "https://x" "sk-proj-12345 "
     (by decide) (by decide) (by decide),
   c5_amended_credential_handling.2.2.2.2.1 envNotFound llmConst jlNone "C" "https://x"
     "short" (by decide),
   c5_amended_credential_handling.2.2.2.2.2 envNotFound llmConst jlNone "C" "https://x"
     "sk-proj-1234567890" (by decide) (by decide)⟩

/-! ## C6 -/

/-- C6: provided the landing page fetch succeeds, get_links raises the
classification parse error exactly when the service reply does not
decode as JSON, and any decoded JSON value is returned as-is with no
schema validation whatsoever. -/
theorem c6_get_links_parse (env : HttpEnv) (llm : LLMEnv) (jl : JsonLoads) (url : String)
    (h : (env url).status = 200) :
    (jl (Brochure.linkReply env llm url) = none →
      (Brochure.get_links env llm jl url).1 = .error .classificationParseError) ∧
    (∀ j, jl (Brochure.linkReply env llm url) = some j →
      (Brochure.get_links env llm jl url).1 = .ok j) := by
  constructor
  · intro hn
    unfold Brochure.get_links Brochure.Website.fetch
    simp only [h, ne_eq, not_true_eq_false, reduceIte]
    rw [show Brochure.linkReply env llm url =
      llm Brochure.link_system_prompt
        (Brochure.get_links_user_prompt (Brochure.mkWebsite url (env url).content)) true
      from rfl] at hn
    simp [hn]
  · intro j hj
    unfold Brochure.get_links Brochure.Website.fetch
    simp only [h, ne_eq, not_true_eq_false, reduceIte]
    rw [show Brochure.linkReply env llm url =
      llm Brochure.link_system_prompt
        (Brochure.get_links_user_prompt (Brochure.mkWebsite url (env url).content)) true
      from rfl] at hj
    simp [hj]

/-- C6 witness: with an undecodable reply get_links raises the parse
error; with a decodable one the raw JSON value (here null, far from the
expected shape) is returned unchecked. -/
theorem c6_witness :
    (Brochure.get_links envTiny llmConst jlNone "https://x").1 =
      .error .classificationParseError ∧
    (Brochure.get_links envTiny llmConst jlNull "https://x").1 = .ok .null :=
  ⟨(c6_get_links_parse envTiny llmConst jlNone "https://x" rfl).1 rfl,
   (c6_get_links_parse envTiny llmConst jlNull "https://x" rfl).2 .null rfl⟩

/-! ## Tree lemmas for the text-extraction claims -/

mutual
theorem removeIrr_scrubN (t : String) (a : List (String × String)) (cs ns : NodeList) :
    removeIrr (.cons (scrubN (.elem t a cs)) ns) = removeIrr (.cons (.elem t a cs) ns) := by
  by_cases h : isIrrelevant t
  · simp [scrubN, removeIrr, h]
  · simp [scrubN, removeIrr, h, removeIrr_scrubL cs]
theorem removeIrr_scrubL (cs : NodeList) : removeIrr (scrubL cs) = removeIrr cs := by
  match cs with
  | .nil => rfl
  | .cons (.text s) ns => simp [scrubL, scrubN, removeIrr, removeIrr_scrubL ns]
  | .cons (.elem t a cs') ns =>
    by_cases h : isIrrelevant t
    · simp [scrubL, scrubN, removeIrr, h, removeIrr_scrubL ns]
    · simp [scrubL, scrubN, removeIrr, h, removeIrr_scrubL ns, removeIrr_scrubL cs']
end

/-! ## C3 -/

/-- C3: the text extracted from a body is computed after removing every
script, style, img and input element, so the literal content of those
elements never influences it: any two body contents that agree outside
those elements (equal scrub) extract to identical text. Moreover the
body text of a document is the whitespace-stripped non-empty text pieces
joined with newlines: every piece is trimmed and non-empty. -/
theorem c3_clean_extraction :
    (∀ cs cs' : NodeList, scrubL cs = scrubL cs' →
      getTextStrip (removeIrr cs) = getTextStrip (removeIrr cs')) ∧
    (∀ doc t a cs, findTagL "body" doc = some (.elem t a cs) →
      Summarizer.bodyTextOf doc = joinSep "\n" (strippedPieces (removeIrr cs)) ∧
      ∀ p ∈ strippedPieces (removeIrr cs), pyStrip p = p ∧ p ≠ "") := by
  constructor
  · intro cs cs' h
    rw [← removeIrr_scrubL cs, h, removeIrr_scrubL cs']
  · intro doc t a cs h
    constructor
    · unfold Summarizer.bodyTextOf
      rw [h]
      rfl
    · intro p hp
      exact mem_strippedPieces hp

/-- A body whose script element holds one text payload. -/
def bodyWithScript : NodeList :=
  .cons (.elem "script" [] (.cons (.text "var secret = 1;") .nil))
    (.cons (.text "Visible") .nil)

/-- The same body with the script content replaced by nothing. -/
def bodyScriptErased : NodeList :=
  .cons (.elem "script" [] .nil) (.cons (.text "Visible") .nil)

/-- A document whose body is bodyWithScript. -/
def docWithBody : NodeList :=
  .cons (.elem "body" [] bodyWithScript) .nil

/-- C3 witness: two concrete bodies differing only in their script
content extract identical text, and the concrete pieces are trimmed and
non-empty. -/
theorem c3_witness :
    getTextStrip (removeIrr bodyWithScript) = getTextStrip (removeIrr bodyScriptErased) ∧
    (Summarizer.bodyTextOf docWithBody = joinSep "\n" (strippedPieces (removeIrr bodyWithScript)) ∧
      ∀ p ∈ strippedPieces (removeIrr bodyWithScript), pyStrip p = p ∧ p ≠ "") :=
  ⟨c3_clean_extraction.1 bodyWithScript bodyScriptErased (by decide),
   c3_clean_extraction.2 docWithBody "body" [] bodyWithScript (by decide)⟩

/-! ## C8 -/

/-- C8: summarizing a page whose title extracts to Example and whose
body text extracts to the two lines Hello, World, with no links,
performs exactly one GET (of the given URL) followed by one summary
chat, never a json-mode classification chat, and returns the service's
non-empty reply verbatim. -/
theorem c8_summarizer_scenario (env : HttpEnv) (llm : LLMEnv) (url : String) (doc : NodeList)
    (henv : env url = ⟨200, doc⟩)
    (htitle : Summarizer.titleOf doc = .ok "Example")
    (hbody : Summarizer.bodyTextOf doc = "Hello\nWorld")
    (_hlinks : pyTruthyStrs (hrefOptsL doc) = [])
    (hne : llm Summarizer.SYSTEM_PROMPT
      (Summarizer.user_prompt_for ⟨url, "Example", "Hello\nWorld"⟩) false ≠ "") :
    Summarizer.summarize env llm url =
      (.ok (llm Summarizer.SYSTEM_PROMPT
          (Summarizer.user_prompt_for ⟨url, "Example", "Hello\nWorld"⟩) false),
        [.get url, .chat Summarizer.SYSTEM_PROMPT
          (Summarizer.user_prompt_for ⟨url, "Example", "Hello\nWorld"⟩) false]) ∧
    llm Summarizer.SYSTEM_PROMPT
      (Summarizer.user_prompt_for ⟨url, "Example", "Hello\nWorld"⟩) false ≠ "" ∧
    countGets [Event.get url, Event.chat Summarizer.SYSTEM_PROMPT
      (Summarizer.user_prompt_for ⟨url, "Example", "Hello\nWorld"⟩) false] = 1 ∧
    (∀ s u, Event.chat s u true ∉
      [Event.get url, Event.chat Summarizer.SYSTEM_PROMPT
        (Summarizer.user_prompt_for ⟨url, "Example", "Hello\nWorld"⟩) false]) := by
  refine ⟨?_, hne, ?_, ?_⟩
  · unfold Summarizer.summarize Summarizer.Website.fetch
    rw [henv]
    simp [htitle, hbody]
  · simp [countGets, isGet]
  · intro s u
    simp [isGet]

/-- A page with title Example, body text lines Hello and World, and no
anchors. -/
def docExample : NodeList :=
  .cons (.elem "html" []
    (.cons (.elem "head" []
      (.cons (.elem "title" [] (.cons (.text "Example") .nil)) .nil))
      (.cons (.elem "body" [] (.cons (.text "Hello") (.cons (.text "World") .nil))) .nil))) .nil

/-- An environment answering every URL with the Example page. -/
def envExample : HttpEnv := fun _ => ⟨200, docExample⟩

/-- C8 witness: the concrete Example page under a constant-reply
service. -/
theorem c8_witness :
    Summarizer.summarize envExample llmConst "https://edwarddonner.com" =
      (.ok "R", [.get "https://edwarddonner.com",
        .chat Summarizer.SYSTEM_PROMPT
          (Summarizer.user_prompt_for
            ⟨"https://edwarddonner.com", "Example", "Hello\nWorld"⟩) false]) ∧
    ("R" : String) ≠ "" ∧
    countGets [Event.get "https://edwarddonner.com",
      Event.chat Summarizer.SYSTEM_PROMPT
        (Summarizer.user_prompt_for
          ⟨"https://edwarddonner.com", "Example", "Hello\nWorld"⟩) false] = 1 ∧
    (∀ s u, Event.chat s u true ∉
      [Event.get "https://edwarddonner.com",
        Event.chat Summarizer.SYSTEM_PROMPT
          (Summarizer.user_prompt_for
            ⟨"https://edwarddonner.com", "Example", "Hello\nWorld"⟩) false]) :=
  c8_summarizer_scenario envExample llmConst "https://edwarddonner.com" docExample
    rfl rfl rfl rfl (by decide)

/-! ## C9 (corrected) -/

mutual
theorem replBodyN_noBody (n : Node) (h : findTagN "body" n = none) :
    replBodyN n = (n, false) := by
  match n with
  | .text s => rfl
  | .elem t a cs =>
    by_cases ht : t = "body"
    · rw [findTagN, if_pos ht] at h
      exact absurd h (by simp)
    · rw [findTagN, if_neg ht] at h
      rw [replBodyN, if_neg ht, replBodyL_noBody cs h]
theorem replBodyL_noBody (cs : NodeList) (h : findTagL "body" cs = none) :
    replBodyL cs = (cs, false) := by
  match cs with
  | .nil => rfl
  | .cons n ns =>
    rw [findTagL] at h
    cases hn : findTagN "body" n with
    | some r =>
      rw [hn] at h
      exact absurd h (by simp)
    | none =>
      rw [hn] at h
      rw [replBodyL, replBodyN_noBody n hn, replBodyL_noBody ns h]
end

/-- A document consisting of a single empty title element and no body. -/
def docEmptyTitle : NodeList :=
  .cons (.elem "title" [] .nil) .nil

/-- An environment answering every URL with the empty-title page. -/
def envEmptyTitle : HttpEnv := fun _ => ⟨200, docEmptyTitle⟩

/-- C9 counterexample: a successfully fetched document with no body
element on which the summarizer's Website construction nevertheless
fails: the title element is present but empty, so title.string is None
and calling strip on it raises an AttributeError. -/
theorem c9_counterexample :
    findTagL "body" docEmptyTitle = none ∧
    (envEmptyTitle "https://x").status = 200 ∧
    Summarizer.Website.fetch envEmptyTitle "https://x" =
      (.error .attributeError, [.get "https://x"]) :=
  ⟨by decide, by decide, rfl⟩

/-- C9 as amended: for a successfully fetched document with no body
element, the body text is empty and, in the brochure script, title and
link list are still extracted from the whole document and construction
never fails; in the summarizer the construction succeeds whenever the
title extraction itself does not raise (it raises an AttributeError
when a title element is present whose string is None). -/
theorem c9_amended_no_body (env : HttpEnv) (url : String) (doc : NodeList)
    (henv : env url = ⟨200, doc⟩)
    (hnb : findTagL "body" doc = none) :
    (Brochure.Website.fetch env url).1 =
      .ok ⟨url, Brochure.titleOf doc, "", pyTruthyStrs (hrefOptsL doc)⟩ ∧
    (∀ t, Summarizer.titleOf doc = .ok t →
      Summarizer.Website.fetch env url = (.ok ⟨url, t, ""⟩, [.get url])) := by
  constructor
  · unfold Brochure.Website.fetch
    rw [henv]
    simp [Brochure.mkWebsite, Summarizer.bodyTextOf, hnb, replBodyL_noBody doc hnb]
  · intro t ht
    unfold Summarizer.Website.fetch
    rw [henv]
    simp [ht, Summarizer.bodyTextOf, hnb]

/-- A document with a whitespace-padded title, an anchor, and no body. -/
def docNoBody : NodeList :=
  .cons (.elem "title" [] (.cons (.text " T ") .nil))
    (.cons (.elem "a" [("href", "x")] .nil) .nil)

/-- An environment answering every URL with the no-body page. -/
def envNoBody : HttpEnv := fun _ => ⟨200, docNoBody⟩

/-- C9 witness: on the concrete no-body page the brochure construction
succeeds with empty text, raw title and the anchor list, and the
summarizer construction succeeds with the stripped title. -/
theorem c9_witness :
    (Brochure.Website.fetch envNoBody "https://x").1 =
      .ok ⟨"https://x", some " T ", "", ["x"]⟩ ∧
    Summarizer.Website.fetch envNoBody "https://x" =
      (.ok ⟨"https://x", "T", ""⟩, [.get "https://x"]) :=
  ⟨(c9_amended_no_body envNoBody "https://x" docNoBody rfl (by decide)).1,
   (c9_amended_no_body envNoBody "https://x" docNoBody rfl (by decide)).2 "T" rfl⟩

/-! ## C4 -/

theorem irrelevant_ne_anchor {t : String} (h : isIrrelevant t = true) : t ≠ "a" := by
  unfold isIrrelevant at h
  simp only [Bool.or_eq_true, decide_eq_true_eq] at h
  rcases h with ((h | h) | h) | h <;> subst h <;> decide

mutual
theorem anchorFree_hrefN (n : Node) (h : anchorFreeN n = true) : hrefOptsN n = [] := by
  match n with
  | .text _ => rfl
  | .elem t a cs =>
    simp only [anchorFreeN, Bool.and_eq_true, Bool.not_eq_true'] at h
    have ht : ¬ t = "a" := by simpa using h.1
    simp [hrefOptsN, ht, anchorFree_hrefL cs h.2]
theorem anchorFree_hrefL (cs : NodeList) (h : anchorFreeL cs = true) : hrefOptsL cs = [] := by
  match cs with
  | .nil => rfl
  | .cons n ns =>
    simp only [anchorFreeL, Bool.and_eq_true] at h
    simp [hrefOptsL, anchorFree_hrefN n h.1, anchorFree_hrefL ns h.2]
end

mutual
theorem anchorFree_noInIrrN (n : Node) (h : anchorFreeN n = true) :
    noAnchorInIrrN n = true := by
  match n with
  | .text _ => rfl
  | .elem t a cs =>
    simp only [anchorFreeN, Bool.and_eq_true] at h
    by_cases hi : isIrrelevant t
    · simp [noAnchorInIrrN, hi, h.2]
    · simp [noAnchorInIrrN, hi, anchorFree_noInIrrL cs h.2]
theorem anchorFree_noInIrrL (cs : NodeList) (h : anchorFreeL cs = true) :
    noAnchorInIrrL cs = true := by
  match cs with
  | .nil => rfl
  | .cons n ns =>
    simp only [anchorFreeL, Bool.and_eq_true] at h
    simp [noAnchorInIrrL, anchorFree_noInIrrN n h.1, anchorFree_noInIrrL ns h.2]
end

theorem hrefOpts_removeIrr (cs : NodeList) (h : noAnchorInIrrL cs = true) :
    hrefOptsL (removeIrr cs) = hrefOptsL cs := by
  match cs with
  | .nil => rfl
  | .cons (.text s) ns =>
    simp only [noAnchorInIrrL, noAnchorInIrrN, Bool.true_and] at h
    simp [removeIrr, hrefOptsL, hrefOptsN, hrefOpts_removeIrr ns h]
  | .cons (.elem t a cs') ns =>
    simp only [noAnchorInIrrL, Bool.and_eq_true] at h
    obtain ⟨hn, hns⟩ := h
    by_cases hi : isIrrelevant t
    · simp only [noAnchorInIrrN, hi, if_pos] at hn
      have hne := irrelevant_ne_anchor hi
      rw [removeIrr, if_pos hi, hrefOpts_removeIrr ns hns]
      simp [hrefOptsL, hrefOptsN, hne, anchorFree_hrefL cs' hn]
    · simp only [noAnchorInIrrN, hi, Bool.false_eq_true, if_neg, ite_false] at hn
      rw [removeIrr, if_neg hi]
      simp [hrefOptsL, hrefOptsN, hrefOpts_removeIrr cs' hn, hrefOpts_removeIrr ns hns]

mutual
theorem hrefOpts_replBodyN (n : Node) (h : noAnchorInIrrN n = true) :
    hrefOptsN (replBodyN n).1 = hrefOptsN n := by
  match n with
  | .text s => rfl
  | .elem t a cs =>
    by_cases hb : t = "body"
    · subst hb
      have hbi : isIrrelevant "body" = false := by decide
      simp only [noAnchorInIrrN, hbi, Bool.false_eq_true, if_neg, ite_false] at h
      simp [replBodyN, hrefOptsN, hrefOpts_removeIrr cs h]
    · have hcs : noAnchorInIrrL cs = true := by
        by_cases hi : isIrrelevant t
        · simp only [noAnchorInIrrN, hi, if_pos] at h
          exact anchorFree_noInIrrL cs h
        · simpa only [noAnchorInIrrN, hi, Bool.false_eq_true, if_neg, ite_false] using h
      cases hr : replBodyL cs with
      | mk cs' flag =>
        cases flag with
        | false => simp [replBodyN, hb, hr]
        | true =>
          have heq := hrefOpts_replBodyL cs hcs
          rw [hr] at heq
          simp only [replBodyN, hb, Bool.false_eq_true, if_neg, ite_false, hr]
          simp [hrefOptsN, heq]
theorem hrefOpts_replBodyL (cs : NodeList) (h : noAnchorInIrrL cs = true) :
    hrefOptsL (replBodyL cs).1 = hrefOptsL cs := by
  match cs with
  | .nil => rfl
  | .cons n ns =>
    simp only [noAnchorInIrrL, Bool.and_eq_true] at h
    obtain ⟨hn, hns⟩ := h
    cases hrn : replBodyN n with
    | mk n' flag =>
      cases flag with
      | true =>
        have heq := hrefOpts_replBodyN n hn
        rw [hrn] at heq
        simp only [replBodyL, hrn]
        simp [hrefOptsL, heq]
      | false =>
        cases hrns : replBodyL ns with
        | mk ns' f =>
          have heq := hrefOpts_replBodyL ns hns
          rw [hrns] at heq
          simp only [replBodyL, hrn, hrns]
          simp [hrefOptsL, heq]
end

theorem pyTruthyStrs_append (xs ys : List (Option String)) :
    pyTruthyStrs (xs ++ ys) = pyTruthyStrs xs ++ pyTruthyStrs ys := by
  induction xs with
  | nil => rfl
  | cons o rest ih =>
    cases o with
    | none => simp [pyTruthyStrs, ih]
    | some s =>
      by_cases hs : s = ""
      · simp [pyTruthyStrs, hs, ih]
      · simp [pyTruthyStrs, hs, ih]

mutual
theorem count_hrefN (n : Node) :
    (pyTruthyStrs (hrefOptsN n)).length = countAnchorsN n := by
  match n with
  | .text _ => rfl
  | .elem t a cs =>
    rw [hrefOptsN, countAnchorsN, pyTruthyStrs_append, List.length_append, count_hrefL cs]
    congr 1
    by_cases ht : t = "a"
    · cases hl : attrLookup a "href" with
      | none => simp [ht, pyTruthyStrs, hasNonemptyHref, hl]
      | some s =>
        by_cases hs : s = ""
        · simp [ht, pyTruthyStrs, hasNonemptyHref, hl, hs]
        · simp [ht, pyTruthyStrs, hasNonemptyHref, hl, hs]
    · simp [ht, pyTruthyStrs]
theorem count_hrefL (cs : NodeList) :
    (pyTruthyStrs (hrefOptsL cs)).length = countAnchorsL cs := by
  match cs with
  | .nil => rfl
  | .cons n ns =>
    rw [hrefOptsL, countAnchorsL, pyTruthyStrs_append, List.length_append,
      count_hrefN n, count_hrefL ns]
end

/-- C4: for a successfully fetched document in which no anchor hides
inside a script, style, img or input element (true of all real parses,
where script and style contents are raw text and img and input are
void), the brochure Website's link list is exactly the anchors' target
values of the whole original document in document order, duplicates
kept, missing and empty targets dropped, nothing resolved; its length
equals the number of anchors with a non-empty target. -/
theorem c4_link_collection (env : HttpEnv) (url : String) (doc : NodeList)
    (henv : env url = ⟨200, doc⟩)
    (hno : noAnchorInIrrL doc = true) :
    (Brochure.Website.fetch env url).1 = .ok (Brochure.mkWebsite url doc) ∧
    (Brochure.mkWebsite url doc).links = pyTruthyStrs (hrefOptsL doc) ∧
    (Brochure.mkWebsite url doc).links.length = countAnchorsL doc := by
  have hlinks : (Brochure.mkWebsite url doc).links = pyTruthyStrs (hrefOptsL doc) := by
    show pyTruthyStrs (hrefOptsL (replBodyL doc).1) = pyTruthyStrs (hrefOptsL doc)
    rw [hrefOpts_replBodyL doc hno]
  refine ⟨?_, hlinks, ?_⟩
  · unfold Brochure.Website.fetch
    rw [henv]
    simp
  · rw [hlinks, count_hrefL]

/-- A page whose body holds anchors with duplicate, empty, missing and
relative targets, plus a script element. -/
def docAnchors : NodeList :=
  .cons (.elem "body" []
    (.cons (.elem "a" [("href", "x")] .nil)
    (.cons (.elem "a" [] .nil)
    (.cons (.elem "a" [("href", "")] .nil)
    (.cons (.elem "script" [] (.cons (.text "junk") .nil))
    (.cons (.elem "a" [("href", "x")] .nil)
    (.cons (.elem "a" [("href", "about")] .nil) .nil))))))) .nil

/-- An environment answering every URL with the anchors page. -/
def envAnchors : HttpEnv := fun _ => ⟨200, docAnchors⟩

/-- C4 witness: on the concrete anchors page the link list keeps the
duplicate, drops the missing and empty targets, leaves the relative
link untouched, and its length matches the anchor count. -/
theorem c4_witness :
    ((Brochure.Website.fetch envAnchors "https://x").1 =
        .ok (Brochure.mkWebsite "https://x" docAnchors) ∧
      (Brochure.mkWebsite "https://x" docAnchors).links = pyTruthyStrs (hrefOptsL docAnchors) ∧
      (Brochure.mkWebsite "https://x" docAnchors).links.length = countAnchorsL docAnchors) ∧
    (Brochure.mkWebsite "https://x" docAnchors).links = ["x", "x", "about"] :=
  ⟨c4_link_collection envAnchors "https://x" docAnchors rfl (by decide), by decide⟩

/-! ## Loop lemmas for the aggregation claims -/

theorem countGets_append (a b : List Event) :
    countGets (a ++ b) = countGets a + countGets b := by
  simp [countGets, List.filter_append]

theorem fetchB_trace (env : HttpEnv) (u : String) :
    (Brochure.Website.fetch env u).2 = [.get u] := by
  by_cases h : (env u).status ≠ 200 <;> simp [Brochure.Website.fetch, h]

theorem fetchLoop_fail (env : HttpEnv) (e : Json) (u : String)
    (hurl : jsonIndex e "url" = .ok (.str u)) (hfail : (env u).status ≠ 200) :
    ∀ (entries : List Json) (acc : String), e ∈ entries →
      ∃ err, (Brochure.fetchLoop env entries acc).1 = .error err := by
  intro entries
  induction entries with
  | nil =>
    intro acc hmem
    exact absurd hmem (List.not_mem_nil e)
  | cons link rest ih =>
    intro acc hmem
    cases hty : jsonIndex link "type" with
    | error e1 => exact ⟨e1, by simp [Brochure.fetchLoop, hty]⟩
    | ok ty =>
      cases hu : jsonIndex link "url" with
      | error e2 => exact ⟨e2, by simp [Brochure.fetchLoop, hty, hu]⟩
      | ok uv =>
        rcases List.mem_cons.mp hmem with heq | hmem'
        · subst heq
          rw [hurl] at hu
          injection hu with hu
          subst hu
          refine ⟨.fetchFailure u (env u).status, ?_⟩
          have hfetch : Brochure.Website.fetch env u =
              (.error (.fetchFailure u (env u).status), [.get u]) := by
            unfold Brochure.Website.fetch
            simp [hfail]
          simp [Brochure.fetchLoop, hty, hurl, hfetch]
        · cases uv with
          | str us =>
            rcases hw : Brochure.Website.fetch env us with ⟨wres, wtr⟩
            cases wres with
            | error e3 => exact ⟨e3, by simp [Brochure.fetchLoop, hty, hu, hw]⟩
            | ok w =>
              obtain ⟨err, hrec⟩ :=
                ih (acc ++ "\n\n" ++ pyStrJson ty ++ "\n" ++ Brochure.get_contents w) hmem'
              refine ⟨err, ?_⟩
              rcases hfl : Brochure.fetchLoop env rest
                  (acc ++ "\n\n" ++ pyStrJson ty ++ "\n" ++ Brochure.get_contents w)
                with ⟨res2, tr2⟩
              rw [hfl] at hrec
              simp [Brochure.fetchLoop, hty, hu, hw, hfl]
              exact hrec
          | null => exact ⟨.typeError, by simp [Brochure.fetchLoop, hty, hu]⟩
          | bool b => exact ⟨.typeError, by simp [Brochure.fetchLoop, hty, hu]⟩
          | num n => exact ⟨.typeError, by simp [Brochure.fetchLoop, hty, hu]⟩
          | arr xs => exact ⟨.typeError, by simp [Brochure.fetchLoop, hty, hu]⟩
          | obj fs => exact ⟨.typeError, by simp [Brochure.fetchLoop, hty, hu]⟩

theorem fetchLoop_success_gets (env : HttpEnv) :
    ∀ (entries : List Json) (acc d : String) (tr : List Event),
      Brochure.fetchLoop env entries acc = (.ok d, tr) →
      countGets tr = entries.length := by
  intro entries
  induction entries with
  | nil =>
    intro acc d tr h
    simp only [Brochure.fetchLoop, Prod.mk.injEq] at h
    rw [← h.2]
    rfl
  | cons link rest ih =>
    intro acc d tr h
    cases hty : jsonIndex link "type" with
    | error e1 => simp [Brochure.fetchLoop, hty] at h
    | ok ty =>
      cases hu : jsonIndex link "url" with
      | error e2 => simp [Brochure.fetchLoop, hty, hu] at h
      | ok uv =>
        cases uv with
        | str us =>
          rcases hw : Brochure.Website.fetch env us with ⟨wres, wtr⟩
          cases wres with
          | error e3 => simp [Brochure.fetchLoop, hty, hu, hw] at h
          | ok w =>
            simp only [Brochure.fetchLoop, hty, hu, hw] at h
            rcases hfl : Brochure.fetchLoop env rest
                (acc ++ "\n\n" ++ pyStrJson ty ++ "\n" ++ Brochure.get_contents w)
              with ⟨res2, tr2⟩
            rw [hfl] at h
            simp only [Prod.mk.injEq] at h
            obtain ⟨hres, htr⟩ := h
            have hwtr : wtr = [.get us] := by
              have hx := fetchB_trace env us
              rw [hw] at hx
              exact hx
            subst htr
            subst hwtr
            have hok : Brochure.fetchLoop env rest
                (acc ++ "\n\n" ++ pyStrJson ty ++ "\n" ++ Brochure.get_contents w) =
                (.ok d, tr2) := by
              rw [hfl, hres]
            have hn := ih _ _ _ hok
            rw [countGets_append, hn]
            simp [countGets, isGet, Nat.add_comm]
        | null => simp [Brochure.fetchLoop, hty, hu] at h
        | bool b => simp [Brochure.fetchLoop, hty, hu] at h
        | num n => simp [Brochure.fetchLoop, hty, hu] at h
        | arr xs => simp [Brochure.fetchLoop, hty, hu] at h
        | obj fs => simp [Brochure.fetchLoop, hty, hu] at h

/-- The accumulated landing-page section of get_all_details. -/
def landingAcc (env : HttpEnv) (url : String) : String :=
  "Landing page:\n" ++ Brochure.get_contents (Brochure.mkWebsite url (env url).content)

theorem get_all_details_of_selected (env : HttpEnv) (llm : LLMEnv) (jl : JsonLoads)
    (url : String) (entries : List Json)
    (hsel : Brochure.selectedEntries env llm jl url = some entries) :
    Brochure.get_all_details env llm jl url =
      ((Brochure.fetchLoop env entries (landingAcc env url)).1,
        .get url :: .get url ::
          .chat Brochure.link_system_prompt
            (Brochure.get_links_user_prompt (Brochure.mkWebsite url (env url).content)) true ::
          (Brochure.fetchLoop env entries (landingAcc env url)).2) := by
  rcases hgl : Brochure.get_links env llm jl url with ⟨glres, gltr⟩
  unfold Brochure.selectedEntries at hsel
  rw [hgl] at hsel
  cases glres with
  | error e0 => exact absurd hsel (by simp)
  | ok j =>
    simp only at hsel
    cases hjx : jsonIndex j "links" with
    | error e1 => simp [hjx] at hsel
    | ok lv =>
      simp only [hjx] at hsel
      cases hit : iterElems lv with
      | error e2 => simp [hit] at hsel
      | ok ents =>
        simp only [hit, Option.some.injEq] at hsel
        subst hsel
        -- dissect get_links to learn the fetch outcome and the trace
        have hglSaved := hgl
        rcases hw : Brochure.Website.fetch env url with ⟨wres, wtr⟩
        cases wres with
        | error e3 => simp [Brochure.get_links, hw] at hgl
        | ok w =>
          simp only [Brochure.get_links, hw] at hgl
          cases hjl : jl (llm Brochure.link_system_prompt
              (Brochure.get_links_user_prompt w) true) with
          | none => simp [hjl] at hgl
          | some j' =>
            simp only [hjl, Prod.mk.injEq, Except.ok.injEq] at hgl
            obtain ⟨hj, hgltr⟩ := hgl
            subst hj
            -- the fetch succeeded: recover status, website and trace
            have hfetch := hw
            unfold Brochure.Website.fetch at hfetch
            by_cases hs : (env url).status ≠ 200
            · simp only [if_pos hs] at hfetch
              exact absurd hfetch (by simp)
            · simp only [if_neg hs] at hfetch
              simp only [Prod.mk.injEq, Except.ok.injEq] at hfetch
              obtain ⟨hwv, hwtr⟩ := hfetch
              subst hwv
              subst hwtr
              subst hgltr
              rcases hfl : Brochure.fetchLoop env ents (landingAcc env url) with ⟨res, tr3⟩
              unfold Brochure.get_all_details
              rw [hw, hglSaved]
              simp only [hjx, hit]
              rw [show ("Landing page:\n" ++
                  Brochure.get_contents (Brochure.mkWebsite url (env url).content)) =
                landingAcc env url from rfl, hfl]
              simp

/-! ## C7 -/

/-- C7: if the classifier selection succeeds and any selected entry
names a sub-page URL whose fetch answers a non-200 status, the whole
get_all_details aggregation raises: it produces no document, no
fallback to the landing page and no partial result. -/
theorem c7_failed_subfetch_aborts (env : HttpEnv) (llm : LLMEnv) (jl : JsonLoads)
    (url : String) (entries : List Json) (e : Json) (u : String)
    (hsel : Brochure.selectedEntries env llm jl url = some entries)
    (hmem : e ∈ entries)
    (hurl : jsonIndex e "url" = .ok (.str u))
    (hfail : (env u).status ≠ 200) :
    ∃ err, (Brochure.get_all_details env llm jl url).1 = .error err := by
  obtain ⟨err, hloop⟩ :=
    fetchLoop_fail env e u hurl hfail entries (landingAcc env url) hmem
  refine ⟨err, ?_⟩
  rw [get_all_details_of_selected env llm jl url entries hsel]
  exact hloop

/-- A selected entry pointing at the sub-page B1. -/
def entryB1 : Json :=
  .obj [("type", .str "about page"), ("url", .str "https://B1")]

/-- A selected entry pointing at the sub-page B2. -/
def entryB2 : Json :=
  .obj [("type", .str "careers page"), ("url", .str "https://B2")]

/-- A json.loads oracle decoding every reply to a selection of B1 only. -/
def jlOne : JsonLoads := fun _ => some (.obj [("links", .arr [entryB1])])

/-- A json.loads oracle decoding every reply to a selection of B1 and B2. -/
def jlTwo : JsonLoads := fun _ => some (.obj [("links", .arr [entryB1, entryB2])])

/-- An environment where the sub-page B1 answers 404 and everything
else answers 200 with the tiny page. -/
def envFailFirst : HttpEnv :=
  fun u => if u = "https://B1" then ⟨404, .nil⟩ else ⟨200, docTiny⟩

/-- C7 witness: with the concrete failing sub-page the aggregation
raises. -/
theorem c7_witness :
    ∃ err, (Brochure.get_all_details envFailFirst llmConst jlOne "https://L").1 =
      .error err :=
  c7_failed_subfetch_aborts envFailFirst llmConst jlOne "https://L" [entryB1]
    entryB1 "https://B1" rfl (by simp) rfl (by decide)

/-! ## C10 (corrected) -/

/-- C10 counterexample: a run in which the classifier selects two links
but the first selected sub-page answers 404: the run aborts after three
GET requests, not 2 + 2. -/
theorem c10_counterexample :
    Brochure.selectedEntries envFailFirst llmConst jlTwo "https://L" =
      some [entryB1, entryB2] ∧
    countGets (Brochure.get_all_details envFailFirst llmConst jlTwo "https://L").2 = 3 ∧
    countGets (Brochure.get_all_details envFailFirst llmConst jlTwo "https://L").2 ≠
      2 + [entryB1, entryB2].length :=
  ⟨rfl, by decide, by decide⟩

/-- C10 as amended: in every run of get_all_details that completes
successfully after the classifier selected n links, exactly 2 + n GET
requests are issued, and the first two of them fetch the landing-page
URL (once from get_all_details itself and once from inside get_links). -/
theorem c10_amended_request_count (env : HttpEnv) (llm : LLMEnv) (jl : JsonLoads)
    (url d : String) (entries : List Json) (tr : List Event)
    (hsel : Brochure.selectedEntries env llm jl url = some entries)
    (hrun : Brochure.get_all_details env llm jl url = (.ok d, tr)) :
    countGets tr = 2 + entries.length ∧
    (tr.filter isGet).take 2 = [.get url, .get url] := by
  rw [get_all_details_of_selected env llm jl url entries hsel] at hrun
  rcases hfl : Brochure.fetchLoop env entries (landingAcc env url) with ⟨res, tr3⟩
  rw [hfl] at hrun
  simp only [Prod.mk.injEq] at hrun
  obtain ⟨hres, htr⟩ := hrun
  have hok : Brochure.fetchLoop env entries (landingAcc env url) = (.ok d, tr3) := by
    rw [hfl, hres]
  have hn := fetchLoop_success_gets env entries (landingAcc env url) d tr3 hok
  rw [← htr]
  constructor
  · have hsplit : (Event.get url :: Event.get url ::
        Event.chat Brochure.link_system_prompt
          (Brochure.get_links_user_prompt (Brochure.mkWebsite url (env url).content)) true ::
        tr3) =
        [Event.get url, Event.get url,
          Event.chat Brochure.link_system_prompt
            (Brochure.get_links_user_prompt (Brochure.mkWebsite url (env url).content)) true]
          ++ tr3 := rfl
    rw [hsplit, countGets_append, hn]
    simp [countGets, isGet]
  · simp [isGet]

/-- C10 witness: a concrete successful run with two selected links
issues exactly four GETs, the first two on the landing page. -/
theorem c10_witness :
    countGets [Event.get "https://L", Event.get "https://L",
      Event.chat Brochure.link_system_prompt
        (Brochure.get_links_user_prompt (Brochure.mkWebsite "https://L" docTiny)) true,
      Event.get "https://B1", Event.get "https://B2"] = 2 + [entryB1, entryB2].length ∧
    (([Event.get "https://L", Event.get "https://L",
      Event.chat Brochure.link_system_prompt
        (Brochure.get_links_user_prompt (Brochure.mkWebsite "https://L" docTiny)) true,
      Event.get "https://B1", Event.get "https://B2"]).filter isGet).take 2 =
      [.get "https://L", .get "https://L"] :=
  c10_amended_request_count envTiny llmConst jlTwo "https://L"
    "Landing page:\nWebpage Title:\nT\nWebpage Contents:\nHi\n\n\n\nabout page\nWebpage Title:\nT\nWebpage Contents:\nHi\n\n\n\ncareers page\nWebpage Title:\nT\nWebpage Contents:\nHi\n\n"
    [entryB1, entryB2]
    [Event.get "https://L", Event.get "https://L",
      Event.chat Brochure.link_system_prompt
        (Brochure.get_links_user_prompt (Brochure.mkWebsite "https://L" docTiny)) true,
      Event.get "https://B1", Event.get "https://B2"]
    rfl rfl

/-- A json.loads oracle decoding every reply to an empty selection. -/
def jlEmptySel : JsonLoads := fun _ => some (.obj [("links", .arr [])])

/-- C2 witness: a concrete successful aggregation, with the result equal
to the 5000-character cutoff of the full prompt. -/
theorem c2_witness :
    (Brochure.get_brochure_user_prompt envTiny llmConst jlEmptySel
        "HuggingFace" "https://L").1 =
      .ok (pySlice 5000 (Brochure.brochureOpening "HuggingFace" ++
        "Landing page:\nWebpage Title:\nT\nWebpage Contents:\nHi\n\n")) ∧
    (pySlice 5000 (Brochure.brochureOpening "HuggingFace" ++
      "Landing page:\nWebpage Title:\nT\nWebpage Contents:\nHi\n\n")).length ≤ 5000 ∧
    (pySlice 5000 (Brochure.brochureOpening "HuggingFace" ++
      "Landing page:\nWebpage Title:\nT\nWebpage Contents:\nHi\n\n")).data =
      (Brochure.brochureOpening "HuggingFace" ++
        "Landing page:\nWebpage Title:\nT\nWebpage Contents:\nHi\n\n").data.take 5000 :=
  c2_truncation_cap envTiny llmConst jlEmptySel "HuggingFace" "https://L"
    "Landing page:\nWebpage Title:\nT\nWebpage Contents:\nHi\n\n" rfl
